import Mathlib

/-!
Shallow embedding of the RentScope orchestrator core
(`orchestrator/src/agents.ts`, `orchestrator/src/index.ts`,
`orchestrator/src/cache.ts`, `orchestrator/src/schemas.ts`).

Modelling conventions:
* JavaScript numbers are modelled as exact rationals (`ℚ`).  The properties
  verified here are order/arithmetic properties that are exact in `ℚ`;
  floating-point error is outside the model.
* `Math.round x` is `⌊x + 1/2⌋` (JS rounds half-up, also for negatives).
* `x.toFixed(2)` followed by `Number(...)` is `⌊x * 100 + 1/2⌋ / 100`
  (ties pick the larger candidate per the ECMAScript spec).
* JSON payload fields that the code reads through optional chaining
  (`?.`) are modelled as `Option` fields; `?? d` is `Option.getD d`.
* JS objects used as dictionaries (`details[id] = ...`) are modelled as
  association lists in insertion order; reading a property is a
  last-binding-wins lookup (`lookupLast`), matching JS overwrite semantics.
* LLM calls are nondeterministic I/O; they are modelled by an oracle
  `attempts : ℕ → Option T` where `attempts i = some t` means the i-th
  attempt produced text whose extracted JSON parsed and schema-validated
  to `t`, and `none` means that attempt failed (transport error, no JSON
  object, parse error, or schema mismatch).
* Signal-provider (MCP) calls are modelled by oracle functions returning
  `Except String payload`; the cache-then-provider sequence in
  `runFullAnalysis` is abstracted by the same oracle (a pure function of
  the call arguments, which is exactly the determinism the cache layer
  provides).  The cache itself is modelled separately (`getCached`,
  `setCached`) for the cache-key claims.
-/

/-- JS `Math.round`: round half toward positive infinity. -/
def jsRound (q : ℚ) : ℚ := (⌊q + 1/2⌋ : ℤ)

/-- JS `Number(x.toFixed(2))`: round to 2 decimals, ties toward the larger value. -/
def toFixed2 (q : ℚ) : ℚ := ((⌊q * 100 + 1/2⌋ : ℤ) : ℚ) / 100

/-- `clamp(value, min, max)` from `orchestrator/src/index.ts`:
`Math.min(max, Math.max(min, value))`. -/
def clamp (value lo hi : ℚ) : ℚ := min hi (max lo value)

/-- Whether the second character list is an initial segment of the first. -/
def charListStartsWith : List Char → List Char → Bool
  | _, [] => true
  | [], _ :: _ => false
  | a :: as, b :: bs => a = b && charListStartsWith as bs

/-- Whether the second character list occurs contiguously in the first. -/
def charListHasSub : List Char → List Char → Bool
  | [], pat => charListStartsWith [] pat
  | a :: as, pat => charListStartsWith (a :: as) pat || charListHasSub as pat

/-- JS `String.prototype.includes`: substring test (the empty pattern is
always found, as in JS). -/
def includesSubstr (s sub : String) : Bool :=
  charListHasSub s.toList sub.toList

/-- Insert an element into a list sorted by `le`, before the first
element it compares `le` to (so an earlier input element stays before
any equal later one). -/
def insertOrd (le : α → α → Bool) (a : α) : List α → List α
  | [] => [a]
  | b :: bs => if le a b then a :: b :: bs else b :: insertOrd le a bs

/-- Stable sort by the boolean comparison `le`.  JS
`Array.prototype.sort` is a stable sort; for a total, transitive
comparison every stable sort returns the same list, so this structural
insertion sort is observably the JS sort. -/
def sortStable (le : α → α → Bool) : List α → List α
  | [] => []
  | a :: as => insertOrd le a (sortStable le as)

/-- A JavaScript value in a numeric position: either an actual finite
number, or one of the non-finite / non-numeric cases that
`normalizeWeight` clamps away (`NaN`, `±Infinity`, a non-number value). -/
inductive JsNum where
  | num (q : ℚ)
  | nan
  | posInf
  | negInf
  | nonNumeric
deriving DecidableEq

/-- `normalizeWeight` from `agents.ts`: non-finite or non-numeric values
become 0 (`Number.isNaN(value) || !Number.isFinite(value)`), finite
numbers are clamped to be non-negative (`Math.max(value, 0)`). -/
def normalizeWeight : JsNum → ℚ
  | .num q => max q 0
  | _ => 0

/-- The three preference weights as given by the caller (arbitrary JS values). -/
structure WeightsIn where
  safety : JsNum
  transit : JsNum
  amenities : JsNum
deriving DecidableEq

/-- Normalized weight triple (plain numbers). -/
structure Weights where
  safety : ℚ
  transit : ℚ
  amenities : ℚ
deriving DecidableEq

/-- `normalizeWeights` from `agents.ts`: clamp each component, then divide
by the total; `total || 1` replaces a zero total by 1. -/
def normalizeWeights (w : WeightsIn) : Weights :=
  let safety := normalizeWeight w.safety
  let transit := normalizeWeight w.transit
  let amenities := normalizeWeight w.amenities
  let total := safety + transit + amenities
  let total := if total = 0 then 1 else total
  { safety := safety / total, transit := transit / total, amenities := amenities / total }

/-- Evidence item (`schemas.ts` `EvidenceSchema`). -/
structure Evidence where
  metric : String
  value : String
  source : String
deriving DecidableEq

/-- Agent output (`schemas.ts` `AgentBaseSchema`).  Note the schema puts
no range bound on `score_0_100` (`z.number()`). -/
structure AgentOutput where
  candidate_id : String
  score_0_100 : ℚ
  summary : String
  pros : List String
  cons : List String
  evidence : List Evidence
deriving DecidableEq

/-- `crime_summary` payload fields the core reads (all optional). -/
structure CrimeSummary where
  counts_by_type : Option (List (String × ℚ)) := none
  rate_hint : Option String := none
  source : Option String := none
deriving DecidableEq

/-- `commute_proxy` payload fields the core reads. -/
structure CommuteProxy where
  est_minutes : Option ℚ := none
  near_transit_hint : Option String := none
  source : Option String := none
deriving DecidableEq

/-- `nearby_pois` payload fields the core reads. -/
structure NearbyPois where
  counts_by_category : Option (List (String × ℚ)) := none
  source : Option String := none
deriving DecidableEq

/-- Payload handed to the safety agent: `{candidate_id, crime_summary}`. -/
structure SafetyPayload where
  candidate_id : String
  crime_summary : Option CrimeSummary
deriving DecidableEq

/-- Payload handed to the transit agent: `{candidate_id, commute_proxy}`. -/
structure TransitPayload where
  candidate_id : String
  commute_proxy : Option CommuteProxy
deriving DecidableEq

/-- Payload handed to the amenities agent: `{candidate_id, nearby_pois}`. -/
structure AmenitiesPayload where
  candidate_id : String
  nearby_pois : Option NearbyPois
deriving DecidableEq

/-- Total incident count in a safety payload:
`Object.values(data.crime_summary?.counts_by_type ?? \x7b\x7d).reduce(sum)`. -/
def safetyTotal (p : SafetyPayload) : ℚ :=
  (((p.crime_summary.bind (·.counts_by_type)).getD []).map (·.2)).sum

/-- `est_minutes` as read by the transit fallback:
`Number(data.commute_proxy?.est_minutes ?? 0)`. -/
def transitMinutes (p : TransitPayload) : ℚ :=
  (p.commute_proxy.bind (·.est_minutes)).getD 0

/-- `near_transit_hint` as read by the transit fallback. -/
def transitHint (p : TransitPayload) : String :=
  (p.commute_proxy.bind (·.near_transit_hint)).getD ""

/-- Total POI count in an amenities payload:
`Object.values(data.nearby_pois?.counts_by_category ?? \x7b\x7d).reduce(sum)`. -/
def amenitiesTotal (p : AmenitiesPayload) : ℚ :=
  (((p.nearby_pois.bind (·.counts_by_category)).getD []).map (·.2)).sum

/-- Deterministic safety fallback (catch branch of `runSafetyAgent`). -/
def runSafetyFallback (p : SafetyPayload) : AgentOutput :=
  let total := safetyTotal p
  let rateHint := (p.crime_summary.bind (·.rate_hint)).getD ""
  let base : ℚ :=
    if includesSubstr rateHint "lower" then 80
    else if includesSubstr rateHint "moderate" then 60
    else 45
  let score := max 10 (base - min (total * 4) 40)
  { candidate_id := p.candidate_id
    score_0_100 := jsRound score
    summary := "Incident density appears " ++
      (if rateHint = "" then "unknown" else rateHint) ++ " based on available data."
    pros := if total < 5 then ["Lower recent incident count in radius"]
            else ["Some recent incidents logged"]
    cons := if total > 8 then ["Higher incident count within radius"]
            else ["Limited coverage window"]
    evidence := [{ metric := "Incident count (window)"
                   value := toString total
                   source := (p.crime_summary.bind (·.source)).getD "MCP crime_summary" }] }

/-- Deterministic transit fallback (catch branch of `runTransitAgent`). -/
def runTransitFallback (p : TransitPayload) : AgentOutput :=
  let minutes := transitMinutes p
  let hint := transitHint p
  let score := 100 - min (minutes * 2) 80
  let score := if includesSubstr hint "near" then score + 5 else score
  { candidate_id := p.candidate_id
    score_0_100 := jsRound score
    summary := "Estimated commute " ++ toString minutes ++ " min with " ++ hint ++ "."
    pros := if minutes < 25 then ["Short estimated commute"]
            else ["Commute proxy within acceptable range"]
    cons := if minutes > 35 then ["Longer estimated commute"]
            else ["Transit hint based on nearest stop"]
    evidence := [{ metric := "Estimated minutes"
                   value := toString minutes
                   source := (p.commute_proxy.bind (·.source)).getD "MCP commute_proxy" }] }

/-- Deterministic amenities fallback (catch branch of `runAmenitiesAgent`). -/
def runAmenitiesFallback (p : AmenitiesPayload) : AgentOutput :=
  let total := amenitiesTotal p
  let score := min (total * 8) 100
  let score := if total = 0 then 20 else score
  { candidate_id := p.candidate_id
    score_0_100 := jsRound score
    summary := "Found " ++ toString total ++ " POIs in requested categories."
    pros := if total > 5 then ["Multiple nearby amenities"] else ["Some nearby amenities"]
    cons := if total < 3 then ["Limited amenity density within radius"]
            else ["Categories unevenly distributed"]
    evidence := [{ metric := "POI count"
                   value := toString total
                   source := (p.nearby_pois.bind (·.source)).getD "MCP nearby_pois" }] }

/-- `runAgentWithRetry` from `agents.ts`.  `apiKey` is whether
`GEMINI_API_KEY` is configured; `attempts i` is the outcome of the i-th
LLM call (`some t` iff the raw text contained a JSON object that parsed
and schema-validated to `t`).  The loop makes at most 3 attempts and
returns the first success; with no key, or with all 3 attempts failing,
it throws (modelled as `Except.error`). -/
def runAgentWithRetry (apiKey : Bool) (attempts : ℕ → Option α) : Except String α :=
  if apiKey = false then .error "GEMINI_API_KEY not set"
  else
    match attempts 0 <|> attempts 1 <|> attempts 2 with
    | some t => .ok t
    | none => .error "Agent failed"

/-- `runSafetyAgent`: try the LLM path, on any thrown error run the
deterministic fallback (the `catch` branch). -/
def runSafetyAgent (apiKey : Bool) (attempts : ℕ → Option AgentOutput)
    (p : SafetyPayload) : AgentOutput :=
  match runAgentWithRetry apiKey attempts with
  | .ok t => t
  | .error _ => runSafetyFallback p

/-- `runTransitAgent`: LLM path with deterministic fallback. -/
def runTransitAgent (apiKey : Bool) (attempts : ℕ → Option AgentOutput)
    (p : TransitPayload) : AgentOutput :=
  match runAgentWithRetry apiKey attempts with
  | .ok t => t
  | .error _ => runTransitFallback p

/-- `runAmenitiesAgent`: LLM path with deterministic fallback. -/
def runAmenitiesAgent (apiKey : Bool) (attempts : ℕ → Option AgentOutput)
    (p : AmenitiesPayload) : AgentOutput :=
  match runAgentWithRetry apiKey attempts with
  | .ok t => t
  | .error _ => runAmenitiesFallback p

/-- Subscore triple of an aggregated candidate. -/
structure Subscores where
  safety : ℚ
  transit : ℚ
  amenities : ℚ
deriving DecidableEq

/-- `AggregatedCandidate` as built in `runFullAnalysis` and consumed by
the aggregator fallback. -/
structure AggregatedCandidate where
  candidate_id : String
  overall_score_0_100 : ℚ
  subscores : Subscores
  pros : List String
  cons : List String
  evidence : List Evidence
deriving DecidableEq

/-- One line of the aggregator ranking (`AggregatorSchema.ranking`). -/
structure RankEntry where
  candidate_id : String
  overall_score_0_100 : ℚ
  summary : String
  key_tradeoffs : List String
deriving DecidableEq

/-- One value of the aggregator details map (`AggregatorSchema.details`). -/
structure DetailEntry where
  subscores : Subscores
  pros : List String
  cons : List String
  evidence : List Evidence
deriving DecidableEq

/-- Aggregator output: ranking plus a details map.  The JS details object
is modelled as an association list in insertion order. -/
structure AggregatorOutput where
  ranking : List RankEntry
  details : List (String × DetailEntry)
deriving DecidableEq

/-- Reading a property of a JS object modelled as an association list:
the last binding wins (later assignments overwrite earlier ones). -/
def lookupLast (l : List (String × β)) (k : String) : Option β :=
  (l.reverse.find? (fun kv => kv.1 = k)).map (·.2)

/-- Payload handed to the aggregator agent: `\x7bweights, candidates\x7d`. -/
structure AggPayload where
  weights : Weights
  candidates : List AggregatedCandidate
deriving DecidableEq

/-- Sort comparison used by the aggregator fallback: the JS stable sort
with comparator `(a, b) => b.overall_score_0_100 - a.overall_score_0_100`
keeps `a` before `b` exactly when `b.overall_score_0_100 ≤ a.overall_score_0_100`. -/
def aggLe (a b : AggregatedCandidate) : Bool :=
  decide (b.overall_score_0_100 ≤ a.overall_score_0_100)

/-- Deterministic aggregator fallback (catch branch of
`runAggregatorAgent`): sort a copy of the candidates by overall score
descending (stable), emit one ranking line per candidate with the score
rounded, and copy each candidate's subscores/pros/cons/evidence into the
details map keyed by candidate id. -/
def runAggregatorFallback (data : AggPayload) : AggregatorOutput :=
  let ranking := (sortStable aggLe data.candidates).map (fun candidate =>
    { candidate_id := candidate.candidate_id
      overall_score_0_100 := jsRound candidate.overall_score_0_100
      summary := "Weighted score based on safety, transit, and amenities signals."
      key_tradeoffs := ["Safety " ++ toString candidate.subscores.safety ++
        ", Transit " ++ toString candidate.subscores.transit ++
        ", Amenities " ++ toString candidate.subscores.amenities] })
  let details := data.candidates.map (fun candidate =>
    (candidate.candidate_id,
      { subscores := candidate.subscores
        pros := candidate.pros
        cons := candidate.cons
        evidence := candidate.evidence }))
  { ranking := ranking, details := details }

/-- `runAggregatorAgent`: LLM path with deterministic fallback. -/
def runAggregatorAgent (apiKey : Bool) (attempts : ℕ → Option AggregatorOutput)
    (p : AggPayload) : AggregatorOutput :=
  match runAgentWithRetry apiKey attempts with
  | .ok t => t
  | .error _ => runAggregatorFallback p

/-- A JSON parameter value as used in cache params objects
(`radius_m`, `window_days`, `campus_lat`, `campus_lon`, `categories`). -/
inductive PVal where
  | num (q : ℚ)
  | str (s : String)
  | strList (xs : List String)
deriving DecidableEq

/-- A JS parameter object: key/value pairs in insertion order
(`JSON.stringify` serializes properties in that order). -/
abbrev Params := List (String × PVal)

/-- JSON-like serialization of a parameter value.  The exact digit
rendering differs from V8, but serialization is injective on each
constructor, which is what the key equality facts depend on. -/
def stringifyPVal : PVal → String
  | .num q => toString q
  | .str s => "\"" ++ s ++ "\""
  | .strList xs => "[" ++ String.intercalate "," (xs.map (fun s => "\"" ++ s ++ "\"")) ++ "]"

/-- `JSON.stringify(params)`: serialize key/value pairs in insertion
order. -/
def jsonStringifyParams (params : Params) : String :=
  "\x7b" ++
    String.intercalate ","
      (params.map (fun kv => "\"" ++ kv.1 ++ "\":" ++ stringifyPVal kv.2)) ++
  "\x7d"

/-- `roundCoord` from `cache.ts`: `Math.round(value * 10000) / 10000`. -/
def roundCoord (value : ℚ) : ℚ := jsRound (value * 10000) / 10000

/-- `buildKey` from `cache.ts`:
`` `${tool}|${roundCoord(lat)},${roundCoord(lon)}|${JSON.stringify(params)}` ``. -/
def buildKey (tool : String) (lat lon : ℚ) (params : Params) : String :=
  tool ++ "|" ++ toString (roundCoord lat) ++ "," ++ toString (roundCoord lon) ++
    "|" ++ jsonStringifyParams params

/-- One document of the `analysis_cache` collection. -/
structure CacheEntry (α : Type) where
  key : String
  tool : String
  lat : ℚ
  lon : ℚ
  params : Params
  data : α

/-- The cache collection: a list of documents.  The `key` field is what
`findOne(\x7bkey\x7d)` and `updateOne(\x7bkey\x7d, ..., upsert)` match on. -/
abbrev Cache (α : Type) := List (CacheEntry α)

/-- `getCached` from `cache.ts`: build the key, `findOne(\x7bkey\x7d)`,
return its `data` field or null. -/
def getCached (cache : Cache α) (tool : String) (lat lon : ℚ) (params : Params) :
    Option α :=
  let key := buildKey tool lat lon params
  (cache.find? (fun e => e.key = key)).map (·.data)

/-- `setCached` from `cache.ts`: build the key and upsert — replace the
document with that key if present, insert otherwise (`$set` overwrites
every field; at most one document per key). -/
def setCached (cache : Cache α) (tool : String) (lat lon : ℚ) (params : Params)
    (data : α) : Cache α :=
  let key := buildKey tool lat lon params
  { key := key, tool := tool, lat := roundCoord lat, lon := roundCoord lon,
    params := params, data := data } ::
    cache.filter (fun e => e.key ≠ key)

/-- `price_range` from the request preferences. -/
structure PriceRange where
  min : Option ℚ
  max : Option ℚ
deriving DecidableEq

/-- Request preferences (`schemas.ts`); weights here are the raw numbers
accepted by `z.number()`. -/
structure Preferences where
  weights : Weights
  radius_m : ℚ
  window_days : ℚ
  poi_categories : List String
  price_range : Option PriceRange
deriving DecidableEq

/-- The `what_if` request body: `\x7bbudget_delta, commute_delta_min\x7d`. -/
structure WhatIf where
  budget_delta : ℚ
  commute_delta_min : ℚ
deriving DecidableEq

/-- `adjustPreferences` from `index.ts`: shift both non-null price bounds
by the budget delta, shift the transit weight by
`clamp(-commute_delta_min / 30, -1, 1) * 0.2` clamped into `[0.05, 0.9]`,
then divide all three weights by their total.  The division is modelled
with `ℚ` semantics where `x / 0 = 0`; in JS a zero total yields
non-finite weights — in both semantics the weights fail to sum to 1 when
the total is 0. -/
def adjustPreferences (preferences : Preferences) (whatIf : WhatIf) : Preferences :=
  let price_range := preferences.price_range.map (fun r =>
    { min := r.min.map (· + whatIf.budget_delta)
      max := r.max.map (· + whatIf.budget_delta) })
  let deltaFactor := clamp (-whatIf.commute_delta_min / 30) (-1) 1 * (2/10)
  let weights : Weights :=
    { safety := preferences.weights.safety
      transit := clamp (preferences.weights.transit + deltaFactor) (5/100) (9/10)
      amenities := preferences.weights.amenities }
  let total := weights.safety + weights.transit + weights.amenities
  { preferences with
    price_range := price_range
    weights :=
      { safety := weights.safety / total
        transit := weights.transit / total
        amenities := weights.amenities / total } }

/-- A caller-supplied candidate location. -/
structure Candidate where
  id : String
  label : String
  lat : ℚ
  lon : ℚ
deriving DecidableEq

/-- Map bounds (request field / rent-grid argument). -/
structure Bounds where
  lat_min : ℚ
  lat_max : ℚ
  lon_min : ℚ
  lon_max : ℚ
deriving DecidableEq

/-- The fixed commute anchor (`const campus = \x7blat: 43.6629, lon: -79.3957\x7d`). -/
def campusLat : ℚ := 43.6629

/-- Longitude of the fixed commute anchor. -/
def campusLon : ℚ := -79.3957

/-- Properties of one rent-grid feature the core reads. -/
structure RentProps where
  cell_id : Option String := none
  avg_price : Option ℚ := none
  count : Option ℚ := none
deriving DecidableEq

/-- One rent-grid feature: `properties` plus the first polygon ring
(`feature.geometry?.coordinates?.[0] ?? []`), vertices as `(x, y)` pairs
in the GeoJSON axis order of the source data. -/
structure RentFeature where
  properties : Option RentProps
  ring : List (ℚ × ℚ)
deriving DecidableEq

/-- A rent-grid overlay (GeoJSON-like feature collection). -/
structure RentOverlay where
  features : List RentFeature
deriving DecidableEq

/-- Arguments of the `rent_grid` provider call. -/
structure RentGridArgs where
  bounds : Bounds
  cell_km : ℚ
  min_count : ℚ
  price_min : Option ℚ
  price_max : Option ℚ
deriving DecidableEq

/-- Oracle for the signal-provider boundary: each call either returns a
payload or fails with a provider error (`callMcpTool` throwing). -/
structure SignalOracle where
  crime : ℚ → ℚ → ℚ → ℚ → Except String CrimeSummary
  commute : ℚ → ℚ → ℚ → ℚ → Except String CommuteProxy
  pois : ℚ → ℚ → List String → ℚ → Except String NearbyPois
  rentGrid : RentGridArgs → Except String RentOverlay

/-- Area-ranking subscore quadruple. -/
structure AreaSubscores where
  affordability : ℚ
  safety : ℚ
  transit : ℚ
  amenities : ℚ
deriving DecidableEq

/-- One area entry of the payload handed to the area-ranking agent. -/
structure AreaPayloadItem where
  area_id : String
  label : String
  center_lat : ℚ
  center_lon : ℚ
  subscores : AreaSubscores
  evidence : List Evidence
deriving DecidableEq

/-- Payload handed to the area-ranking agent: `\x7bweights, areas\x7d`. -/
structure AreaPayload where
  weights : Weights
  areas : List AreaPayloadItem
deriving DecidableEq

/-- One line of the area ranking (`AreaRankingSchema.ranking`). -/
structure AreaRankEntry where
  area_id : String
  label : String
  overall_score_0_100 : ℚ
  summary : String
  key_tradeoffs : List String
deriving DecidableEq

/-- One value of the area details map (`AreaRankingSchema.details`). -/
structure AreaDetail where
  label : String
  center_lat : ℚ
  center_lon : ℚ
  subscores : AreaSubscores
  pros : List String
  cons : List String
  evidence : List Evidence
deriving DecidableEq

/-- Area-ranking output: ranking plus details map (association list). -/
structure AreaRankingOutput where
  ranking : List AreaRankEntry
  details : List (String × AreaDetail)
deriving DecidableEq

/-- Sum of the four area subscores (used by the fallback sort and score). -/
def areaScoreSum (s : AreaSubscores) : ℚ :=
  s.affordability + s.safety + s.transit + s.amenities

/-- Sort comparison of the area-ranking fallback: stable sort by subscore
sum descending. -/
def areaLe (a b : AreaPayloadItem) : Bool :=
  decide (areaScoreSum b.subscores ≤ areaScoreSum a.subscores)

/-- Deterministic area-ranking fallback (catch branch of `runAreaRanking`). -/
def runAreaRankingFallback (data : AreaPayload) : AreaRankingOutput :=
  let ranking := (sortStable areaLe data.areas).map (fun area =>
    { area_id := area.area_id
      label := area.label
      overall_score_0_100 := jsRound (areaScoreSum area.subscores / 4)
      summary := "Weighted score based on rent, safety, transit, and amenities."
      key_tradeoffs := ["Affordability " ++ toString area.subscores.affordability ++
        ", Safety " ++ toString area.subscores.safety ++
        ", Transit " ++ toString area.subscores.transit ++
        ", Amenities " ++ toString area.subscores.amenities] })
  let details := data.areas.map (fun area =>
    (area.area_id,
      { label := area.label
        center_lat := area.center_lat
        center_lon := area.center_lon
        subscores := area.subscores
        pros := []
        cons := []
        evidence := area.evidence }))
  { ranking := ranking, details := details }

/-- LLM oracle for one full-analysis run: whether the API key is set, and
one attempt stream per role invocation (indexed by the payload of that
invocation, since each invocation is a separate sequence of LLM calls). -/
structure Llm where
  key : Bool
  safetyAtt : SafetyPayload → ℕ → Option AgentOutput
  transitAtt : TransitPayload → ℕ → Option AgentOutput
  amenitiesAtt : AmenitiesPayload → ℕ → Option AgentOutput
  aggregatorAtt : AggPayload → ℕ → Option AggregatorOutput
  areaRankingAtt : AreaPayload → ℕ → Option AreaRankingOutput

/-- `runAreaRanking`: LLM path with deterministic fallback. -/
def runAreaRanking (apiKey : Bool) (attempts : ℕ → Option AreaRankingOutput)
    (p : AreaPayload) : AreaRankingOutput :=
  match runAgentWithRetry apiKey attempts with
  | .ok t => t
  | .error _ => runAreaRankingFallback p

/-- Per-candidate results of the three sub-agents. -/
structure SubAgentResult where
  candidate_id : String
  safety : AgentOutput
  transit : AgentOutput
  amenities : AgentOutput
deriving DecidableEq

/-- The sequential per-candidate loop of `runFullAnalysis`: fetch the
three signal payloads (cache-then-provider, abstracted by the oracle; a
provider failure aborts the whole run) and run the three sub-agents,
accumulating one result per candidate in order. -/
def candidatePhase (prefs : Preferences) (sig : SignalOracle) (llm : Llm) :
    List Candidate → Except String (List SubAgentResult)
  | [] => .ok []
  | candidate :: rest => do
      let crimeSummary ← sig.crime candidate.lat candidate.lon prefs.radius_m prefs.window_days
      let commuteProxy ← sig.commute candidate.lat candidate.lon campusLat campusLon
      let nearbyPois ← sig.pois candidate.lat candidate.lon prefs.poi_categories prefs.radius_m
      let sp : SafetyPayload := ⟨candidate.id, some crimeSummary⟩
      let tp : TransitPayload := ⟨candidate.id, some commuteProxy⟩
      let ap : AmenitiesPayload := ⟨candidate.id, some nearbyPois⟩
      let r : SubAgentResult :=
        { candidate_id := candidate.id
          safety := runSafetyAgent llm.key (llm.safetyAtt sp) sp
          transit := runTransitAgent llm.key (llm.transitAtt tp) tp
          amenities := runAmenitiesAgent llm.key (llm.amenitiesAtt ap) ap }
      let rs ← candidatePhase prefs sig llm rest
      pure (r :: rs)

/-- The aggregation step of `runFullAnalysis`: weighted overall score
rounded to 2 decimals, rounded subscores, pros/cons concatenated in
safety/transit/amenities order and truncated to 6, evidence concatenated
without truncation. -/
def aggregateCandidates (weights : Weights) (results : List SubAgentResult) :
    List AggregatedCandidate :=
  results.map (fun result =>
    let overall := result.safety.score_0_100 * weights.safety +
      result.transit.score_0_100 * weights.transit +
      result.amenities.score_0_100 * weights.amenities
    { candidate_id := result.candidate_id
      overall_score_0_100 := toFixed2 overall
      subscores := { safety := jsRound result.safety.score_0_100
                     transit := jsRound result.transit.score_0_100
                     amenities := jsRound result.amenities.score_0_100 }
      pros := (result.safety.pros ++ result.transit.pros ++ result.amenities.pros).take 6
      cons := (result.safety.cons ++ result.transit.cons ++ result.amenities.cons).take 6
      evidence := result.safety.evidence ++ result.transit.evidence ++
        result.amenities.evidence })

/-- A map marker of the response. -/
structure Marker where
  candidate_id : String
  lat : ℚ
  lon : ℚ
  rank : ℕ
deriving DecidableEq

/-- `candidateMap.get(id)`: the JS `Map` built from `[id, candidate]`
entries keeps the last entry per id. -/
def mapGet (cs : List Candidate) (id : String) : Option Candidate :=
  cs.reverse.find? (fun c => c.id = id)

/-- Marker construction of `runFullAnalysis`, one entry at a time with
the current 0-based index; an id with no matching input candidate throws
`Unknown candidate`, aborting the whole construction. -/
def buildMarkersFrom (cs : List Candidate) (index : ℕ) :
    List RankEntry → Except String (List Marker)
  | [] => .ok []
  | r :: rest =>
    match mapGet cs r.candidate_id with
    | some candidate => do
        let ms ← buildMarkersFrom cs (index + 1) rest
        pure ({ candidate_id := r.candidate_id, lat := candidate.lat,
                lon := candidate.lon, rank := index + 1 } :: ms)
    | none => .error ("Unknown candidate " ++ r.candidate_id)

/-- Marker construction of `runFullAnalysis`: one marker per ranking
entry, rank = 1-based position. -/
def buildMarkers (ranking : List RankEntry) (cs : List Candidate) :
    Except String (List Marker) :=
  buildMarkersFrom cs 0 ranking

/-- JS `Math.min(...xs)` on a nonempty spread list. -/
def listMinQ : List ℚ → ℚ
  | [] => 0
  | x :: xs => xs.foldl min x

/-- JS `Math.max(...xs)` on a nonempty spread list. -/
def listMaxQ : List ℚ → ℚ
  | [] => 0
  | x :: xs => xs.foldl max x

/-- An area candidate derived from one rent-grid cell. -/
structure AreaCandidate where
  area_id : String
  label : String
  center_lat : ℚ
  center_lon : ℚ
  avg_price : ℚ
  count : ℚ
deriving DecidableEq

/-- Centroid/metadata extraction for one rent-grid feature; `none` when
the polygon ring is empty (the source returns `null`, filtered out).
The centroid averages `item[1]` into the latitude and `item[0]` into the
longitude, reproducing the axis swap of the source. -/
def mkAreaCandidate (feature : RentFeature) : Option AreaCandidate :=
  let props := feature.properties.getD {}
  let coords := feature.ring
  if coords.isEmpty then none
  else
    let centerLat := (coords.map (·.2)).sum / coords.length
    let centerLon := (coords.map (·.1)).sum / coords.length
    some { area_id := props.cell_id.getD (toString centerLat ++ "-" ++ toString centerLon)
           label := match props.cell_id with
             | some cid => if cid = "" then "Grid area" else "Grid " ++ cid
             | none => "Grid area"
           center_lat := centerLat
           center_lon := centerLon
           avg_price := props.avg_price.getD 0
           count := props.count.getD 0 }

/-- Sort comparison for area candidates: stable sort by listing count
descending (`(a, b) => b.count - a.count`). -/
def countLe (a b : AreaCandidate) : Bool := decide (b.count ≤ a.count)

/-- Area-candidate derivation of `runFullAnalysis`: map features to
centroids, drop empty rings, keep the 12 densest cells. -/
def deriveAreaCandidates (overlay : Option RentOverlay) : List AreaCandidate :=
  let rentFeatures := (overlay.map (·.features)).getD []
  (sortStable countLe (rentFeatures.filterMap mkAreaCandidate)).take 12

/-- The sequential per-area loop of `runFullAnalysis`: fetch crime and
POI signals at the centroid, average commute minutes over one sample per
input candidate, and compute the four subscores.  Provider failures here
are not caught (they abort the run). -/
def areaPhase (cs : List Candidate) (prefs : Preferences) (priceRange : PriceRange)
    (sig : SignalOracle) (areas : List AreaCandidate) :
    Except String (List AreaPayloadItem) :=
  areas.mapM (fun area => do
    let crimeSummary ← sig.crime area.center_lat area.center_lon prefs.radius_m prefs.window_days
    let poiSummary ← sig.pois area.center_lat area.center_lon prefs.poi_categories prefs.radius_m
    let commuteSamples ← cs.mapM (fun anchor =>
      sig.commute area.center_lat area.center_lon anchor.lat anchor.lon)
    let commuteMinutes := (commuteSamples.map (fun item => item.est_minutes.getD 0)).sum /
      max (commuteSamples.length : ℚ) 1
    let incidentCount := ((crimeSummary.counts_by_type.getD []).map (·.2)).sum
    let poiCount := ((poiSummary.counts_by_category.getD []).map (·.2)).sum
    let affordabilityScore :=
      match priceRange.max with
      | some priceMax =>
          if priceMax ≠ 0 ∧ area.avg_price ≠ 0 then
            max 10 (min 100 (100 - area.avg_price / priceMax * 80))
          else 60
      | none => 60
    let safetyScore := max 10 (100 - min (incidentCount * 6) 80)
    let transitScore := max 10 (100 - min (commuteMinutes * 2) 80)
    let amenitiesScore := max 10 (min (poiCount * 8) 100)
    pure { area_id := area.area_id
           label := area.label
           center_lat := area.center_lat
           center_lon := area.center_lon
           subscores := { affordability := jsRound affordabilityScore
                          safety := jsRound safetyScore
                          transit := jsRound transitScore
                          amenities := jsRound amenitiesScore }
           evidence := [⟨"Avg rent", toString area.avg_price, "Rent data"⟩,
             ⟨"Listing count", toString area.count, "Listing data"⟩,
             ⟨"Incident count", toString incidentCount, crimeSummary.source.getD "TPS MCI"⟩,
             ⟨"Avg commute (min)", toString (jsRound commuteMinutes), "MCP commute_proxy"⟩,
             ⟨"Amenities count", toString poiCount, poiSummary.source.getD "Overpass API"⟩] })

/-- Area-marker construction: top 6 ranked areas, coordinates read from
the details map (a missing details entry is a thrown TypeError in JS,
modelled as an error). -/
def buildAreaMarkersFrom (details : List (String × AreaDetail)) (index : ℕ) :
    List AreaRankEntry → Except String (List Marker)
  | [] => .ok []
  | a :: rest =>
    match lookupLast details a.area_id with
    | some detail => do
        let ms ← buildAreaMarkersFrom details (index + 1) rest
        pure ({ candidate_id := a.area_id, lat := detail.center_lat,
                lon := detail.center_lon, rank := index + 1 } :: ms)
    | none => .error "Cannot read properties of undefined (reading center)"

def buildAreaMarkers (ranking : List AreaRankEntry) (details : List (String × AreaDetail)) :
    Except String (List Marker) :=
  buildAreaMarkersFrom details 0 (ranking.take 6)

/-- One line of the response ranking.  The candidate branch emits entries
without a `label` property (`label := none`); the area branch includes
the label. -/
structure RespRankEntry where
  candidate_id : String
  label : Option String
  overall_score_0_100 : ℚ
  summary : String
  key_tradeoffs : List String
deriving DecidableEq

/-- The response details map: candidate-level or area-level breakdowns. -/
inductive RespDetails where
  | forCandidates (d : List (String × DetailEntry))
  | forAreas (d : List (String × AreaDetail))
deriving DecidableEq

/-- Response overlays: `\x7brent_geojson, crime_geojson: null\x7d`. -/
structure Overlays where
  rent_geojson : Option RentOverlay
  crime_geojson : Option Unit
deriving DecidableEq

/-- The `map` part of the response. -/
structure MapOut where
  markers : List Marker
  overlays : Overlays
deriving DecidableEq

/-- The full-analysis response. -/
structure Response where
  ranking : List RespRankEntry
  details : RespDetails
  map : MapOut
deriving DecidableEq

/-- `runFullAnalysis` from `index.ts`: candidate loop, aggregation,
aggregator agent, markers, optional rent overlay (failure caught and
treated as `null`), area derivation, and either the candidate-only
response (no area candidates) or the area-ranking response. -/
def runFullAnalysis (cs : List Candidate) (prefs : Preferences)
    (map_bounds : Option Bounds) (sig : SignalOracle) (llm : Llm) :
    Except String Response := do
  let weights := normalizeWeights
    ⟨.num prefs.weights.safety, .num prefs.weights.transit, .num prefs.weights.amenities⟩
  let results ← candidatePhase prefs sig llm cs
  let aggregated := aggregateCandidates weights results
  let aggPayload : AggPayload := ⟨weights, aggregated⟩
  let aggregatorOutput := runAggregatorAgent llm.key (llm.aggregatorAtt aggPayload) aggPayload
  let markers ← buildMarkers aggregatorOutput.ranking cs
  let lats := cs.map (·.lat) ++ [campusLat]
  let lons := cs.map (·.lon) ++ [campusLon]
  let latMin := (map_bounds.map (·.lat_min)).getD (listMinQ lats - 2/100)
  let latMax := (map_bounds.map (·.lat_max)).getD (listMaxQ lats + 2/100)
  let lonMin := (map_bounds.map (·.lon_min)).getD (listMinQ lons - 2/100)
  let lonMax := (map_bounds.map (·.lon_max)).getD (listMaxQ lons + 2/100)
  let priceRange := prefs.price_range.getD ⟨none, none⟩
  let rentOverlay := (sig.rentGrid
    ⟨⟨latMin, latMax, lonMin, lonMax⟩, 8/10, 1, priceRange.min, priceRange.max⟩).toOption
  let areaCandidates := deriveAreaCandidates rentOverlay
  if areaCandidates.isEmpty then
    pure { ranking := aggregatorOutput.ranking.map (fun r =>
             ⟨r.candidate_id, none, r.overall_score_0_100, r.summary, r.key_tradeoffs⟩)
           details := .forCandidates aggregatorOutput.details
           map := { markers := markers
                    overlays := { rent_geojson := rentOverlay, crime_geojson := none } } }
  else
    let areasPayload ← areaPhase cs prefs priceRange sig areaCandidates
    let areaPayload : AreaPayload := ⟨weights, areasPayload⟩
    let areaRanking := runAreaRanking llm.key (llm.areaRankingAtt areaPayload) areaPayload
    let areaMarkers ← buildAreaMarkers areaRanking.ranking areaRanking.details
    pure { ranking := areaRanking.ranking.map (fun item =>
             ⟨item.area_id, some item.label, item.overall_score_0_100, item.summary,
              item.key_tradeoffs⟩)
           details := .forAreas areaRanking.details
           map := { markers := areaMarkers
                    overlays := { rent_geojson := rentOverlay, crime_geojson := none } } }

/-- Fixture for concrete runs: providers succeed with fixed payloads, the
rent-grid provider fails. -/
def sigEx : SignalOracle :=
  { crime := fun _ _ _ _ => .ok ⟨some [], some "lower", some "TPS"⟩
    commute := fun _ _ _ _ => .ok ⟨some 20, some "near stop", some "MCP"⟩
    pois := fun _ _ _ _ => .ok ⟨some [], some "OSM"⟩
    rentGrid := fun _ => .error "rent_grid down" }

/-- Fixture LLM oracle: no API key configured, all attempts fail. -/
def llmEx : Llm :=
  ⟨false, fun _ _ => none, fun _ _ => none, fun _ _ => none, fun _ _ => none,
    fun _ _ => none⟩

/-- Fixture candidate list. -/
def csEx : List Candidate := [⟨"c1", "Candidate 1", 43, -79⟩]

/-- Fixture preferences. -/
def prefsEx : Preferences := ⟨⟨1, 1, 1⟩, 600, 365, [], none⟩

theorem insertOrd_perm (le : α → α → Bool) (a : α) (l : List α) :
    (insertOrd le a l).Perm (a :: l) := by
  induction l with
  | nil => exact List.Perm.refl _
  | cons b bs ih =>
      by_cases h : le a b
      · simp [insertOrd, h]
      · simp only [insertOrd, h, if_false]
        exact (ih.cons b).trans (List.Perm.swap a b bs)

theorem sortStable_perm (le : α → α → Bool) (l : List α) :
    (sortStable le l).Perm l := by
  induction l with
  | nil => exact List.Perm.refl _
  | cons a as ih => exact (insertOrd_perm le a (sortStable le as)).trans (ih.cons a)

theorem mem_sortStable {le : α → α → Bool} {l : List α} {x : α} :
    x ∈ sortStable le l ↔ x ∈ l :=
  (sortStable_perm le l).mem_iff

theorem insertOrd_pairwise (le : α → α → Bool)
    (htrans : ∀ x y z, le x y = true → le y z = true → le x z = true)
    (htotal : ∀ x y, le x y = true ∨ le y x = true)
    (a : α) (l : List α) (h : l.Pairwise (fun x y => le x y = true)) :
    (insertOrd le a l).Pairwise (fun x y => le x y = true) := by
  induction l with
  | nil => simp [insertOrd]
  | cons b bs ih =>
      rcases List.pairwise_cons.mp h with ⟨hb, hbs⟩
      by_cases hab : le a b
      · simp only [insertOrd, hab, if_true]
        refine List.pairwise_cons.mpr ⟨?_, h⟩
        intro y hy
        rcases List.mem_cons.mp hy with rfl | hy
        · exact hab
        · exact htrans a b y hab (hb y hy)
      · simp only [insertOrd, hab, if_false]
        refine List.pairwise_cons.mpr ⟨?_, ih hbs⟩
        intro y hy
        have hy' : y ∈ a :: bs := (insertOrd_perm le a bs).mem_iff.mp hy
        rcases List.mem_cons.mp hy' with rfl | hy2
        · rcases htotal y b with hab' | hba
          · exact absurd hab' hab
          · exact hba
        · exact hb y hy2

theorem sortStable_pairwise (le : α → α → Bool)
    (htrans : ∀ x y z, le x y = true → le y z = true → le x z = true)
    (htotal : ∀ x y, le x y = true ∨ le y x = true)
    (l : List α) : (sortStable le l).Pairwise (fun x y => le x y = true) := by
  induction l with
  | nil => simp [sortStable]
  | cons a as ih => exact insertOrd_pairwise le htrans htotal a _ ih

theorem intCast_le_jsRound {n : ℤ} {q : ℚ} (h : (n : ℚ) ≤ q) : (n : ℚ) ≤ jsRound q := by
  unfold jsRound
  exact_mod_cast Int.le_floor.mpr (by linarith)

theorem jsRound_le_intCast {n : ℤ} {q : ℚ} (h : q ≤ (n : ℚ)) : jsRound q ≤ (n : ℚ) := by
  unfold jsRound
  have : ⌊q + 1/2⌋ < n + 1 := Int.floor_lt.mpr (by push_cast; linarith)
  exact_mod_cast Int.lt_add_one_iff.mp this

theorem jsRound_intCast (n : ℤ) : jsRound ((n : ℚ)) = (n : ℚ) :=
  le_antisymm (jsRound_le_intCast (le_refl _)) (intCast_le_jsRound (le_refl _))

theorem normalizeWeight_nonneg (v : JsNum) : 0 ≤ normalizeWeight v := by
  cases v <;> simp [normalizeWeight]

theorem runSafetyFallback_score (p : SafetyPayload) :
    (runSafetyFallback p).score_0_100 =
      jsRound (max 10
        ((if includesSubstr ((p.crime_summary.bind (·.rate_hint)).getD "") "lower" then (80 : ℚ)
          else if includesSubstr ((p.crime_summary.bind (·.rate_hint)).getD "") "moderate" then 60
          else 45) - min (safetyTotal p * 4) 40)) := rfl

theorem runTransitFallback_score (p : TransitPayload) :
    (runTransitFallback p).score_0_100 =
      jsRound (if includesSubstr (transitHint p) "near"
        then 100 - min (transitMinutes p * 2) 80 + 5
        else 100 - min (transitMinutes p * 2) 80) := rfl

theorem runAmenitiesFallback_score (p : AmenitiesPayload) :
    (runAmenitiesFallback p).score_0_100 =
      jsRound (if amenitiesTotal p = 0 then 20 else min (amenitiesTotal p * 8) 100) := rfl

/-- C2: for every weight triple, `normalizeWeights` clamps non-numeric,
NaN, infinite and negative components to 0 and returns a non-negative
triple; the outputs sum to exactly 1 unless the clamped inputs sum to 0,
in which case the output is exactly `\x7b0, 0, 0\x7d` (the zero total is
replaced by 1, so there is no division by zero). -/
theorem normalizeWeights_spec (w : WeightsIn) :
    (0 ≤ (normalizeWeights w).safety ∧ 0 ≤ (normalizeWeights w).transit ∧
      0 ≤ (normalizeWeights w).amenities) ∧
    (normalizeWeight w.safety + normalizeWeight w.transit + normalizeWeight w.amenities = 0 →
      normalizeWeights w = ⟨0, 0, 0⟩) ∧
    (normalizeWeight w.safety + normalizeWeight w.transit + normalizeWeight w.amenities ≠ 0 →
      (normalizeWeights w).safety + (normalizeWeights w).transit +
        (normalizeWeights w).amenities = 1) ∧
    (normalizeWeight .nan = 0 ∧ normalizeWeight .posInf = 0 ∧
      normalizeWeight .negInf = 0 ∧ normalizeWeight .nonNumeric = 0 ∧
      ∀ q : ℚ, q ≤ 0 → normalizeWeight (.num q) = 0) := by
  have hs : 0 ≤ normalizeWeight w.safety := normalizeWeight_nonneg _
  have ht : 0 ≤ normalizeWeight w.transit := normalizeWeight_nonneg _
  have ha : 0 ≤ normalizeWeight w.amenities := normalizeWeight_nonneg _
  have hclamp : normalizeWeight .nan = 0 ∧ normalizeWeight .posInf = 0 ∧
      normalizeWeight .negInf = 0 ∧ normalizeWeight .nonNumeric = 0 ∧
      ∀ q : ℚ, q ≤ 0 → normalizeWeight (.num q) = 0 := by
    refine ⟨rfl, rfl, rfl, rfl, fun q hq => ?_⟩
    simp [normalizeWeight, max_eq_right hq]
  by_cases h0 : normalizeWeight w.safety + normalizeWeight w.transit +
      normalizeWeight w.amenities = 0
  · have hsz : normalizeWeight w.safety = 0 := by linarith
    have htz : normalizeWeight w.transit = 0 := by linarith
    have haz : normalizeWeight w.amenities = 0 := by linarith
    refine ⟨?_, fun _ => ?_, fun hne => absurd h0 hne, hclamp⟩ <;>
      simp [normalizeWeights, h0, hsz, htz, haz]
  · have hpos : (0 : ℚ) < normalizeWeight w.safety + normalizeWeight w.transit +
        normalizeWeight w.amenities := lt_of_le_of_ne (by linarith) (Ne.symm h0)
    refine ⟨?_, fun hz => absurd hz h0, fun _ => ?_, hclamp⟩
    · simp only [normalizeWeights, h0, if_false]
      exact ⟨div_nonneg hs hpos.le, div_nonneg ht hpos.le, div_nonneg ha hpos.le⟩
    · simp only [normalizeWeights, h0, if_false]
      field_simp

/-- C3 counterexample: a commute payload with `est_minutes = 0` and a
`near_transit_hint` containing `"near"` makes the transit fallback return
`score_0_100 = 105`, outside `[0, 100]`. -/
theorem transit_fallback_score_above_100 :
    (runTransitFallback ⟨"c1", some ⟨some 0, some "near bus stop", none⟩⟩).score_0_100 = 105 ∧
    ¬((runTransitFallback ⟨"c1", some ⟨some 0, some "near bus stop", none⟩⟩).score_0_100 ≤ 100) := by
  have h : includesSubstr "near bus stop" "near" = true := by decide
  have e : (runTransitFallback ⟨"c1", some ⟨some 0, some "near bus stop", none⟩⟩).score_0_100
      = 105 := by
    norm_num [runTransitFallback, transitMinutes, transitHint, jsRound, h]
  exact ⟨e, by rw [e]; norm_num⟩

/-- C3 (amended): the deterministic fallback scores are bounded as the
arithmetic allows: for non-negative incident totals the safety score is
in `[10, 80]`, for non-negative POI totals the amenities score is in
`[0, 100]`, but for non-negative commute minutes the transit score is
only in `[20, 105]` — it exceeds 100 when a `"near"` hint is present and
`est_minutes` is small, so the claimed `[0, 100]` bound fails for the
transit role (and no range at all is enforced on the LLM path, whose
schema is an unbounded `z.number()`). -/
theorem fallback_score_ranges (ps : SafetyPayload) (pt : TransitPayload)
    (pa : AmenitiesPayload) (hs : 0 ≤ safetyTotal ps) (hm : 0 ≤ transitMinutes pt)
    (ha : 0 ≤ amenitiesTotal pa) :
    (10 ≤ (runSafetyFallback ps).score_0_100 ∧ (runSafetyFallback ps).score_0_100 ≤ 80) ∧
    (0 ≤ (runAmenitiesFallback pa).score_0_100 ∧
      (runAmenitiesFallback pa).score_0_100 ≤ 100) ∧
    (20 ≤ (runTransitFallback pt).score_0_100 ∧
      (runTransitFallback pt).score_0_100 ≤ 105) := by
  refine ⟨?_, ?_, ?_⟩
  · rw [runSafetyFallback_score]
    set base : ℚ := if includesSubstr ((ps.crime_summary.bind (·.rate_hint)).getD "") "lower"
      then (80 : ℚ)
      else if includesSubstr ((ps.crime_summary.bind (·.rate_hint)).getD "") "moderate" then 60
      else 45 with hbase
    have hb : 45 ≤ base ∧ base ≤ 80 := by
      rw [hbase]; split_ifs <;> norm_num
    have hmin : 0 ≤ min (safetyTotal ps * 4) 40 := le_min (by linarith) (by norm_num)
    have h1 : (10 : ℚ) ≤ max 10 (base - min (safetyTotal ps * 4) 40) := le_max_left _ _
    have h2 : max 10 (base - min (safetyTotal ps * 4) 40) ≤ 80 :=
      max_le (by norm_num) (by linarith [hb.2])
    exact ⟨by exact_mod_cast intCast_le_jsRound (n := 10) (by exact_mod_cast h1),
      by exact_mod_cast jsRound_le_intCast (n := 80) (by exact_mod_cast h2)⟩
  · rw [runAmenitiesFallback_score]
    by_cases hz : amenitiesTotal pa = 0
    · rw [if_pos hz]
      constructor
      · exact_mod_cast intCast_le_jsRound (n := 0) (by norm_num)
      · exact_mod_cast jsRound_le_intCast (n := 100) (by norm_num)
    · rw [if_neg hz]
      have h1 : (0 : ℚ) ≤ min (amenitiesTotal pa * 8) 100 :=
        le_min (by linarith) (by norm_num)
      have h2 : min (amenitiesTotal pa * 8) 100 ≤ 100 := min_le_right _ _
      exact ⟨by exact_mod_cast intCast_le_jsRound (n := 0) (by exact_mod_cast h1),
        by exact_mod_cast jsRound_le_intCast (n := 100) (by exact_mod_cast h2)⟩
  · rw [runTransitFallback_score]
    have hmin1 : 0 ≤ min (transitMinutes pt * 2) 80 := le_min (by linarith) (by norm_num)
    have hmin2 : min (transitMinutes pt * 2) 80 ≤ 80 := min_le_right _ _
    have h1 : (20 : ℚ) ≤ (if includesSubstr (transitHint pt) "near"
        then 100 - min (transitMinutes pt * 2) 80 + 5
        else 100 - min (transitMinutes pt * 2) 80) := by
      split_ifs <;> linarith
    have h2 : (if includesSubstr (transitHint pt) "near"
        then 100 - min (transitMinutes pt * 2) 80 + 5
        else 100 - min (transitMinutes pt * 2) 80) ≤ 105 := by
      split_ifs <;> linarith
    exact ⟨by exact_mod_cast intCast_le_jsRound (n := 20) (by exact_mod_cast h1),
      by exact_mod_cast jsRound_le_intCast (n := 105) (by exact_mod_cast h2)⟩

/-- Witness for `fallback_score_ranges` at concrete empty-count payloads. -/
theorem fallback_score_ranges_witness :
    (0 ≤ safetyTotal ⟨"c", some ⟨some [], none, none⟩⟩ ∧
      0 ≤ transitMinutes ⟨"c", some ⟨some 0, none, none⟩⟩ ∧
      0 ≤ amenitiesTotal ⟨"c", some ⟨some [], none⟩⟩) ∧
    ((10 ≤ (runSafetyFallback ⟨"c", some ⟨some [], none, none⟩⟩).score_0_100 ∧
      (runSafetyFallback ⟨"c", some ⟨some [], none, none⟩⟩).score_0_100 ≤ 80) ∧
    (0 ≤ (runAmenitiesFallback ⟨"c", some ⟨some [], none⟩⟩).score_0_100 ∧
      (runAmenitiesFallback ⟨"c", some ⟨some [], none⟩⟩).score_0_100 ≤ 100) ∧
    (20 ≤ (runTransitFallback ⟨"c", some ⟨some 0, none, none⟩⟩).score_0_100 ∧
      (runTransitFallback ⟨"c", some ⟨some 0, none, none⟩⟩).score_0_100 ≤ 105)) :=
  ⟨⟨by simp [safetyTotal], by simp [transitMinutes], by simp [amenitiesTotal]⟩,
    fallback_score_ranges ⟨"c", some ⟨some [], none, none⟩⟩ ⟨"c", some ⟨some 0, none, none⟩⟩
      ⟨"c", some ⟨some [], none⟩⟩ (by simp [safetyTotal]) (by simp [transitMinutes])
      (by simp [amenitiesTotal])⟩

/-- C9: for every `nearby_pois` payload whose category counts sum to an
integer, the deterministic amenities fallback returns
`min(total * 8, 100)` when `total > 0`, and exactly `20` (not `0`) when
`total = 0`. -/
theorem amenities_fallback_formula (p : AmenitiesPayload)
    (h : ∃ n : ℤ, amenitiesTotal p = (n : ℚ)) :
    (0 < amenitiesTotal p →
      (runAmenitiesFallback p).score_0_100 = min (amenitiesTotal p * 8) 100) ∧
    (amenitiesTotal p = 0 → (runAmenitiesFallback p).score_0_100 = 20) := by
  obtain ⟨n, hn⟩ := h
  constructor
  · intro hpos
    rw [runAmenitiesFallback_score, if_neg (by linarith)]
    have hcast : min (amenitiesTotal p * 8) 100 = ((min (n * 8) 100 : ℤ) : ℚ) := by
      push_cast
      rw [hn]
    rw [hcast, jsRound_intCast]
  · intro hz
    rw [runAmenitiesFallback_score, if_pos hz]
    have : (20 : ℚ) = ((20 : ℤ) : ℚ) := by norm_num
    rw [this, jsRound_intCast]

/-- Witness for `amenities_fallback_formula` at an empty-counts payload. -/
theorem amenities_fallback_formula_witness :
    (∃ n : ℤ, amenitiesTotal ⟨"c", some ⟨some [], none⟩⟩ = (n : ℚ)) ∧
    ((0 < amenitiesTotal ⟨"c", some ⟨some [], none⟩⟩ →
      (runAmenitiesFallback ⟨"c", some ⟨some [], none⟩⟩).score_0_100 =
        min (amenitiesTotal ⟨"c", some ⟨some [], none⟩⟩ * 8) 100) ∧
    (amenitiesTotal ⟨"c", some ⟨some [], none⟩⟩ = 0 →
      (runAmenitiesFallback ⟨"c", some ⟨some [], none⟩⟩).score_0_100 = 20)) :=
  ⟨⟨0, by simp [amenitiesTotal]⟩,
    amenities_fallback_formula ⟨"c", some ⟨some [], none⟩⟩ ⟨0, by simp [amenitiesTotal]⟩⟩

theorem jsRound_mono {p q : ℚ} (h : p ≤ q) : jsRound p ≤ jsRound q := by
  unfold jsRound
  exact_mod_cast Int.floor_le_floor (by linarith)

theorem lookupLast_map_nodup {γ β : Type} (keyf : γ → String) (valf : γ → β)
    (l : List γ) (hnd : (l.map keyf).Nodup) (c : γ) (hc : c ∈ l) :
    lookupLast (l.map (fun x => (keyf x, valf x))) (keyf c) = some (valf c) := by
  induction l with
  | nil => cases hc
  | cons a as ih =>
      have hnd' : (as.map keyf).Nodup := (List.nodup_cons.mp hnd).2
      have hka : keyf a ∉ as.map keyf := (List.nodup_cons.mp hnd).1
      rcases List.mem_cons.mp hc with rfl | hmem
      · have hnone : ((as.map (fun x => (keyf x, valf x))).reverse.find?
            (fun kv => kv.1 = keyf c)) = none := by
          rw [List.find?_eq_none]
          intro kv hkv
          simp only [List.mem_reverse, List.mem_map] at hkv
          obtain ⟨x, hx, rfl⟩ := hkv
          simp only [decide_eq_true_eq]
          intro hkeq
          exact hka (hkeq ▸ List.mem_map_of_mem keyf hx)
        simp only [lookupLast, List.map_cons, List.reverse_cons, List.find?_append, hnone,
          Option.none_orElse]
        simp [List.find?]
      · have hne : keyf c ≠ keyf a := by
          intro hkeq
          exact hka (hkeq ▸ List.mem_map_of_mem keyf hmem)
        have := ih hnd' hmem
        simp only [lookupLast] at this ⊢
        obtain ⟨kv, hfind, hkv2⟩ : ∃ kv,
            ((as.map (fun x => (keyf x, valf x))).reverse.find?
              (fun kv => kv.1 = keyf c)) = some kv ∧ kv.2 = valf c := by
          cases hf : ((as.map (fun x => (keyf x, valf x))).reverse.find?
              (fun kv => kv.1 = keyf c)) with
          | none => rw [hf] at this; simp at this
          | some kv => rw [hf] at this; exact ⟨kv, rfl, by simpa using this⟩
        simp only [List.map_cons, List.reverse_cons, List.find?_append, hfind,
          Option.some_orElse]
        simpa using hkv2

/-- C1: the aggregator's deterministic fallback ranking is sorted by
`overall_score_0_100` descending, its details map carries each input
candidate's subscores, pros, cons and evidence unmodified (ids are
unique within a request), and for input scores `[40, 90, 70]` on
candidates `[c1, c2, c3]` the ranking order is `[c2, c3, c1]`.  No
corresponding order guarantee is code-enforced on the LLM path: any
`AggregatorOutput` accepted by the schema is returned as-is. -/
theorem aggregator_fallback_spec (data : AggPayload)
    (hids : (data.candidates.map (·.candidate_id)).Nodup) :
    ((runAggregatorFallback data).ranking.Pairwise
      (fun x y => y.overall_score_0_100 ≤ x.overall_score_0_100)) ∧
    (∀ c ∈ data.candidates,
      lookupLast (runAggregatorFallback data).details c.candidate_id =
        some ⟨c.subscores, c.pros, c.cons, c.evidence⟩) ∧
    ((runAggregatorFallback ⟨⟨1, 0, 0⟩,
        [⟨"c1", 40, ⟨40, 40, 40⟩, [], [], []⟩,
         ⟨"c2", 90, ⟨90, 90, 90⟩, [], [], []⟩,
         ⟨"c3", 70, ⟨70, 70, 70⟩, [], [], []⟩]⟩).ranking.map (·.candidate_id) =
      ["c2", "c3", "c1"]) := by
  refine ⟨?_, ?_, by decide⟩
  · have hsorted : (sortStable aggLe data.candidates).Pairwise
        (fun x y => aggLe x y = true) :=
      sortStable_pairwise aggLe
        (fun x y z hxy hyz => by
          simp only [aggLe, decide_eq_true_eq] at hxy hyz ⊢
          linarith)
        (fun x y => by
          simp only [aggLe, decide_eq_true_eq]
          exact le_total y.overall_score_0_100 x.overall_score_0_100)
        data.candidates
    simp only [runAggregatorFallback]
    rw [List.pairwise_map]
    refine hsorted.imp ?_
    intro a b hab
    simp only [aggLe, decide_eq_true_eq] at hab
    exact jsRound_mono hab
  · intro c hc
    simpa [runAggregatorFallback] using
      lookupLast_map_nodup (fun x => x.candidate_id)
        (fun x => (⟨x.subscores, x.pros, x.cons, x.evidence⟩ : DetailEntry))
        data.candidates hids c hc

/-- Witness for `aggregator_fallback_spec` at the `[40, 90, 70]` input. -/
theorem aggregator_fallback_spec_witness :
    ((([⟨"c1", 40, ⟨40, 40, 40⟩, [], [], []⟩,
        ⟨"c2", 90, ⟨90, 90, 90⟩, [], [], []⟩,
        ⟨"c3", 70, ⟨70, 70, 70⟩, [], [], []⟩] : List AggregatedCandidate).map
          (·.candidate_id)).Nodup) ∧
    (((runAggregatorFallback ⟨⟨1, 0, 0⟩,
        [⟨"c1", 40, ⟨40, 40, 40⟩, [], [], []⟩,
         ⟨"c2", 90, ⟨90, 90, 90⟩, [], [], []⟩,
         ⟨"c3", 70, ⟨70, 70, 70⟩, [], [], []⟩]⟩).ranking.Pairwise
      (fun x y => y.overall_score_0_100 ≤ x.overall_score_0_100)) ∧
    (∀ c ∈ ([⟨"c1", 40, ⟨40, 40, 40⟩, [], [], []⟩,
         ⟨"c2", 90, ⟨90, 90, 90⟩, [], [], []⟩,
         ⟨"c3", 70, ⟨70, 70, 70⟩, [], [], []⟩] : List AggregatedCandidate),
      lookupLast (runAggregatorFallback ⟨⟨1, 0, 0⟩,
        [⟨"c1", 40, ⟨40, 40, 40⟩, [], [], []⟩,
         ⟨"c2", 90, ⟨90, 90, 90⟩, [], [], []⟩,
         ⟨"c3", 70, ⟨70, 70, 70⟩, [], [], []⟩]⟩).details c.candidate_id =
        some ⟨c.subscores, c.pros, c.cons, c.evidence⟩) ∧
    ((runAggregatorFallback ⟨⟨1, 0, 0⟩,
        [⟨"c1", 40, ⟨40, 40, 40⟩, [], [], []⟩,
         ⟨"c2", 90, ⟨90, 90, 90⟩, [], [], []⟩,
         ⟨"c3", 70, ⟨70, 70, 70⟩, [], [], []⟩]⟩).ranking.map (·.candidate_id) =
      ["c2", "c3", "c1"])) :=
  ⟨by decide, aggregator_fallback_spec ⟨⟨1, 0, 0⟩,
      [⟨"c1", 40, ⟨40, 40, 40⟩, [], [], []⟩,
       ⟨"c2", 90, ⟨90, 90, 90⟩, [], [], []⟩,
       ⟨"c3", 70, ⟨70, 70, 70⟩, [], [], []⟩]⟩ (by decide)⟩

theorem string_append_left_cancel {a s t : String} (h : a ++ s = a ++ t) : s = t := by
  apply String.ext
  have := congrArg String.data h
  rw [String.data_append, String.data_append] at this
  exact List.append_cancel_left this

theorem buildKey_congr {tool : String} {lat1 lon1 lat2 lon2 : ℚ} {params1 params2 : Params}
    (hlat : roundCoord lat1 = roundCoord lat2) (hlon : roundCoord lon1 = roundCoord lon2)
    (hp : jsonStringifyParams params1 = jsonStringifyParams params2) :
    buildKey tool lat1 lon1 params1 = buildKey tool lat2 lon2 params2 := by
  simp only [buildKey, hlat, hlon, hp]

/-- C4 (amended): the cache key is a pure function of (tool, lat rounded
to 4 decimals, lon rounded to 4 decimals, the JSON serialization of the
params object in its insertion order): two calls with the same tool,
coordinates rounding to the same 4-decimal values, and identically
serialized parameter objects produce the same key.  The params
serialization is plain `JSON.stringify`, not a canonicalization, so the
insertion order of the parameter keys is part of the cache key (see the
counterexample `buildKey_order_sensitive`). -/
theorem buildKey_pure (tool : String) (lat1 lon1 lat2 lon2 : ℚ)
    (params1 params2 : Params)
    (hlat : roundCoord lat1 = roundCoord lat2)
    (hlon : roundCoord lon1 = roundCoord lon2)
    (hp : jsonStringifyParams params1 = jsonStringifyParams params2) :
    buildKey tool lat1 lon1 params1 = buildKey tool lat2 lon2 params2 :=
  buildKey_congr hlat hlon hp

/-- Witness for `buildKey_pure`: the two coordinate pairs of the spec's
round-trip example and one params object. -/
theorem buildKey_pure_witness :
    (roundCoord 43.6629123 = roundCoord 43.6628999 ∧
      roundCoord (-79.3957456) = roundCoord (-79.3957499) ∧
      jsonStringifyParams [("radius_m", PVal.num 600)] =
        jsonStringifyParams [("radius_m", PVal.num 600)]) ∧
    buildKey "crime_summary" 43.6629123 (-79.3957456) [("radius_m", PVal.num 600)] =
      buildKey "crime_summary" 43.6628999 (-79.3957499) [("radius_m", PVal.num 600)] :=
  ⟨⟨by norm_num [roundCoord, jsRound], by norm_num [roundCoord, jsRound], rfl⟩,
    buildKey_pure "crime_summary" 43.6629123 (-79.3957456) 43.6628999 (-79.3957499)
      [("radius_m", PVal.num 600)] [("radius_m", PVal.num 600)]
      (by norm_num [roundCoord, jsRound]) (by norm_num [roundCoord, jsRound]) rfl⟩

/-- C4 counterexample: two parameter objects holding the same key/value
pairs in different insertion orders are permutations of each other yet
produce different cache keys — `JSON.stringify` serializes in insertion
order and is not canonicalizing. -/
theorem buildKey_order_sensitive :
    (([("radius_m", PVal.num 600), ("window_days", PVal.num 365)] : Params).Perm
      [("window_days", PVal.num 365), ("radius_m", PVal.num 600)]) ∧
    buildKey "crime_summary" 43.6629 (-79.3957)
        [("radius_m", PVal.num 600), ("window_days", PVal.num 365)] ≠
      buildKey "crime_summary" 43.6629 (-79.3957)
        [("window_days", PVal.num 365), ("radius_m", PVal.num 600)] := by
  constructor
  · exact List.Perm.swap _ _ _
  · intro h
    have hjson : jsonStringifyParams
        [("radius_m", PVal.num 600), ("window_days", PVal.num 365)] =
        jsonStringifyParams
        [("window_days", PVal.num 365), ("radius_m", PVal.num 600)] := by
      unfold buildKey at h
      exact string_append_left_cancel h
    have : jsonStringifyParams
        [("radius_m", PVal.num 600), ("window_days", PVal.num 365)] ≠
        jsonStringifyParams
        [("window_days", PVal.num 365), ("radius_m", PVal.num 600)] := by decide
    exact this hjson

/-- C8: cache round-trip under coordinate rounding: after
`set(tool, 43.6629123, -79.3957456, params, payload)` on any prior cache
state, `get(tool, 43.6628999, -79.3957499, params)` returns that payload,
because both coordinate pairs round to `(43.6629, -79.3957)` and hence
build the same cache key. -/
theorem cache_roundtrip_rounding {α : Type} (cache : Cache α) (tool : String)
    (params : Params) (payload : α) :
    getCached (setCached cache tool 43.6629123 (-79.3957456) params payload)
      tool 43.6628999 (-79.3957499) params = some payload := by
  have hkey : buildKey tool 43.6628999 (-79.3957499) params =
      buildKey tool 43.6629123 (-79.3957456) params :=
    buildKey_congr (by norm_num [roundCoord, jsRound]) (by norm_num [roundCoord, jsRound]) rfl
  unfold getCached setCached
  rw [hkey]
  simp [List.find?]

theorem runAgentWithRetry_error_of {α : Type} (key : Bool) (att : ℕ → Option α)
    (h : key = false ∨ (att 0 = none ∧ att 1 = none ∧ att 2 = none)) :
    ∃ e, runAgentWithRetry key att = .error e := by
  rcases h with hk | ⟨h0, h1, h2⟩
  · exact ⟨"GEMINI_API_KEY not set", by simp [runAgentWithRetry, hk]⟩
  · cases key with
    | false => exact ⟨"GEMINI_API_KEY not set", by simp [runAgentWithRetry]⟩
    | true => exact ⟨"Agent failed", by simp [runAgentWithRetry, h0, h1, h2]⟩

/-- C5: for every role invocation, if no LLM credential is configured, or
JSON extraction / parsing / schema validation fails on all of the at most
3 attempts, the runner returns the role's deterministic fallback; the
roles are total functions (LLM transport errors, malformed output and
schema mismatches are absorbed, never surfaced), and the retry loop
consults only attempts 0, 1 and 2. -/
theorem agent_soft_failures (key : Bool)
    (attS attT attA : ℕ → Option AgentOutput) (attG : ℕ → Option AggregatorOutput)
    (ps : SafetyPayload) (pt : TransitPayload) (pa : AmenitiesPayload) (pg : AggPayload)
    (h : key = false ∨
      ((attS 0 = none ∧ attS 1 = none ∧ attS 2 = none) ∧
       (attT 0 = none ∧ attT 1 = none ∧ attT 2 = none) ∧
       (attA 0 = none ∧ attA 1 = none ∧ attA 2 = none) ∧
       (attG 0 = none ∧ attG 1 = none ∧ attG 2 = none))) :
    runSafetyAgent key attS ps = runSafetyFallback ps ∧
    runTransitAgent key attT pt = runTransitFallback pt ∧
    runAmenitiesAgent key attA pa = runAmenitiesFallback pa ∧
    runAggregatorAgent key attG pg = runAggregatorFallback pg ∧
    (∀ (att att' : ℕ → Option AgentOutput), att 0 = att' 0 → att 1 = att' 1 →
      att 2 = att' 2 → runAgentWithRetry key att = runAgentWithRetry key att') := by
  obtain ⟨eS, hS⟩ := runAgentWithRetry_error_of key attS (h.imp id fun hh => hh.1)
  obtain ⟨eT, hT⟩ := runAgentWithRetry_error_of key attT (h.imp id fun hh => hh.2.1)
  obtain ⟨eA, hA⟩ := runAgentWithRetry_error_of key attA (h.imp id fun hh => hh.2.2.1)
  obtain ⟨eG, hG⟩ := runAgentWithRetry_error_of key attG (h.imp id fun hh => hh.2.2.2)
  refine ⟨?_, ?_, ?_, ?_, ?_⟩
  · simp [runSafetyAgent, hS]
  · simp [runTransitAgent, hT]
  · simp [runAmenitiesAgent, hA]
  · simp [runAggregatorAgent, hG]
  · intro att att' h0 h1 h2
    simp [runAgentWithRetry, h0, h1, h2]

/-- Witness for `agent_soft_failures`: no API key configured. -/
theorem agent_soft_failures_witness :
    ((false = false ∨
      (((fun _ : ℕ => (none : Option AgentOutput)) 0 = none ∧
        (fun _ : ℕ => (none : Option AgentOutput)) 1 = none ∧
        (fun _ : ℕ => (none : Option AgentOutput)) 2 = none) ∧
       ((fun _ : ℕ => (none : Option AgentOutput)) 0 = none ∧
        (fun _ : ℕ => (none : Option AgentOutput)) 1 = none ∧
        (fun _ : ℕ => (none : Option AgentOutput)) 2 = none) ∧
       ((fun _ : ℕ => (none : Option AgentOutput)) 0 = none ∧
        (fun _ : ℕ => (none : Option AgentOutput)) 1 = none ∧
        (fun _ : ℕ => (none : Option AgentOutput)) 2 = none) ∧
       ((fun _ : ℕ => (none : Option AggregatorOutput)) 0 = none ∧
        (fun _ : ℕ => (none : Option AggregatorOutput)) 1 = none ∧
        (fun _ : ℕ => (none : Option AggregatorOutput)) 2 = none)))) ∧
    (runSafetyAgent false (fun _ => none) ⟨"c", none⟩ = runSafetyFallback ⟨"c", none⟩ ∧
     runTransitAgent false (fun _ => none) ⟨"c", none⟩ = runTransitFallback ⟨"c", none⟩ ∧
     runAmenitiesAgent false (fun _ => none) ⟨"c", none⟩ = runAmenitiesFallback ⟨"c", none⟩ ∧
     runAggregatorAgent false (fun _ => none) ⟨⟨1, 0, 0⟩, []⟩ =
       runAggregatorFallback ⟨⟨1, 0, 0⟩, []⟩ ∧
     (∀ (att att' : ℕ → Option AgentOutput), att 0 = att' 0 → att 1 = att' 1 →
       att 2 = att' 2 → runAgentWithRetry false att = runAgentWithRetry false att')) :=
  ⟨Or.inl rfl,
    agent_soft_failures false (fun _ => none) (fun _ => none) (fun _ => none) (fun _ => none)
      ⟨"c", none⟩ ⟨"c", none⟩ ⟨"c", none⟩ ⟨⟨1, 0, 0⟩, []⟩ (Or.inl rfl)⟩

/-- C6 counterexample: with weights `(-0.9, 0.9, 0)` and a zero commute
delta the clamped transit weight is `0.9`, the three weights then total
`0`, and the "renormalized" weights do not sum to 1 (in JS the division
by zero yields non-finite weights; in this exact model the quotients are
0 — in both semantics the sum is not 1). -/
theorem adjustPreferences_zero_total :
    ¬((adjustPreferences ⟨⟨-9/10, 9/10, 0⟩, 600, 365, [], none⟩ ⟨0, 0⟩).weights.safety +
      (adjustPreferences ⟨⟨-9/10, 9/10, 0⟩, 600, 365, [], none⟩ ⟨0, 0⟩).weights.transit +
      (adjustPreferences ⟨⟨-9/10, 9/10, 0⟩, 600, 365, [], none⟩ ⟨0, 0⟩).weights.amenities
        = 1) := by
  norm_num [adjustPreferences, clamp]

/-- C6 (amended): `adjustPreferences` shifts both non-null ends of the
price range by the budget delta and leaves null bounds null (+200 on
min 1600 / max 2600 yields min 1800 / max 2800); it shifts the transit
weight by `clamp(-commute_delta_min/30, -1, 1) * 0.2`, clamps the result
into `[0.05, 0.9]`, and divides all three weights by their post-clamp
total; the outputs sum to 1 whenever that total is nonzero (the total
can be 0 because the safety and amenities weights are used as given and
may be negative — see `adjustPreferences_zero_total`). -/
theorem adjustPreferences_spec (p : Preferences) (w : WhatIf)
    (h : p.weights.safety +
        clamp (p.weights.transit + clamp (-w.commute_delta_min / 30) (-1) 1 * (2/10))
          (5/100) (9/10) + p.weights.amenities ≠ 0) :
    ((adjustPreferences p w).price_range = p.price_range.map (fun r =>
        ⟨r.min.map (· + w.budget_delta), r.max.map (· + w.budget_delta)⟩)) ∧
    ((adjustPreferences p w).weights.transit =
      clamp (p.weights.transit + clamp (-w.commute_delta_min / 30) (-1) 1 * (2/10))
          (5/100) (9/10) /
        (p.weights.safety +
          clamp (p.weights.transit + clamp (-w.commute_delta_min / 30) (-1) 1 * (2/10))
            (5/100) (9/10) + p.weights.amenities)) ∧
    ((adjustPreferences p w).weights.safety + (adjustPreferences p w).weights.transit +
      (adjustPreferences p w).weights.amenities = 1) ∧
    ((adjustPreferences ⟨⟨4/10, 4/10, 2/10⟩, 600, 365, [], some ⟨some 1600, some 2600⟩⟩
        ⟨200, 0⟩).price_range = some ⟨some 1800, some 2800⟩) := by
  refine ⟨rfl, rfl, ?_, by norm_num [adjustPreferences, clamp]⟩
  show p.weights.safety / _ + _ / _ + _ / _ = 1
  rw [div_add_div_same, div_add_div_same]
  exact div_self h

/-- Witness for `adjustPreferences_spec` at the spec's +200 example. -/
theorem adjustPreferences_spec_witness :
    ((⟨⟨4/10, 4/10, 2/10⟩, 600, 365, [], some ⟨some 1600, some 2600⟩⟩ :
        Preferences).weights.safety +
      clamp ((⟨⟨4/10, 4/10, 2/10⟩, 600, 365, [], some ⟨some 1600, some 2600⟩⟩ :
          Preferences).weights.transit +
        clamp (-(⟨200, 0⟩ : WhatIf).commute_delta_min / 30) (-1) 1 * (2/10)) (5/100) (9/10) +
      (⟨⟨4/10, 4/10, 2/10⟩, 600, 365, [], some ⟨some 1600, some 2600⟩⟩ :
        Preferences).weights.amenities ≠ 0) ∧
    ((adjustPreferences ⟨⟨4/10, 4/10, 2/10⟩, 600, 365, [], some ⟨some 1600, some 2600⟩⟩
        ⟨200, 0⟩).weights.safety +
      (adjustPreferences ⟨⟨4/10, 4/10, 2/10⟩, 600, 365, [], some ⟨some 1600, some 2600⟩⟩
        ⟨200, 0⟩).weights.transit +
      (adjustPreferences ⟨⟨4/10, 4/10, 2/10⟩, 600, 365, [], some ⟨some 1600, some 2600⟩⟩
        ⟨200, 0⟩).weights.amenities = 1) :=
  ⟨by norm_num [clamp],
    (adjustPreferences_spec
      ⟨⟨4/10, 4/10, 2/10⟩, 600, 365, [], some ⟨some 1600, some 2600⟩⟩ ⟨200, 0⟩
      (by norm_num [clamp])).2.2.1⟩

theorem mapGet_isSome_of_mem {cs : List Candidate} {cid : String}
    (h : ∃ c ∈ cs, cid = c.id) : (mapGet cs cid).isSome := by
  obtain ⟨c, hc, rfl⟩ := h
  unfold mapGet
  rw [List.find?_isSome]
  exact ⟨c, List.mem_reverse.mpr hc, by simp⟩

theorem buildMarkersFrom_ok (cs : List Candidate) (ranking : List RankEntry) (n : ℕ)
    (h : ∀ r ∈ ranking, ∃ c ∈ cs, r.candidate_id = c.id) :
    ∃ ms, buildMarkersFrom cs n ranking = .ok ms := by
  induction ranking generalizing n with
  | nil => exact ⟨[], rfl⟩
  | cons r rest ih =>
      have hs := mapGet_isSome_of_mem (h r (List.mem_cons_self r rest))
      obtain ⟨cand, hcand⟩ := Option.isSome_iff_exists.mp hs
      obtain ⟨ms, hms⟩ := ih (n + 1) (fun x hx => h x (List.mem_cons_of_mem _ hx))
      exact ⟨Marker.mk r.candidate_id cand.lat cand.lon (n + 1) :: ms,
        by simp [buildMarkersFrom, hcand, hms]⟩

theorem fallback_ranking_ids (data : AggPayload) :
    ∀ r ∈ (runAggregatorFallback data).ranking,
      ∃ a ∈ data.candidates, r.candidate_id = a.candidate_id := by
  intro r hr
  simp only [runAggregatorFallback, List.mem_map] at hr
  obtain ⟨a, ha, rfl⟩ := hr
  exact ⟨a, mem_sortStable.mp ha, rfl⟩

/-- C10: when the aggregated candidates' ids all come from the input
candidates, every entry of the deterministic fallback ranking carries the
id of some input candidate (the fallback only permutes its input), so the
defensive `Unknown candidate` throw of the marker construction is
unreachable on the fallback path. -/
theorem aggregator_fallback_markers_safe (cs : List Candidate) (data : AggPayload)
    (h : ∀ a ∈ data.candidates, ∃ c ∈ cs, a.candidate_id = c.id) :
    (∀ r ∈ (runAggregatorFallback data).ranking, ∃ c ∈ cs, r.candidate_id = c.id) ∧
    ∃ ms, buildMarkers (runAggregatorFallback data).ranking cs = .ok ms := by
  have hr : ∀ r ∈ (runAggregatorFallback data).ranking,
      ∃ c ∈ cs, r.candidate_id = c.id := by
    intro r hrmem
    obtain ⟨a, ha, heq⟩ := fallback_ranking_ids data r hrmem
    obtain ⟨c, hc, hceq⟩ := h a ha
    exact ⟨c, hc, heq.trans hceq⟩
  exact ⟨hr, buildMarkersFrom_ok cs _ 0 hr⟩

/-- Witness for `aggregator_fallback_markers_safe` at a one-candidate
aggregation. -/
theorem aggregator_fallback_markers_safe_witness :
    (∀ a ∈ ([⟨"c1", 50, ⟨50, 50, 50⟩, [], [], []⟩] : List AggregatedCandidate),
      ∃ c ∈ csEx, a.candidate_id = c.id) ∧
    ((∀ r ∈ (runAggregatorFallback ⟨⟨1, 0, 0⟩,
        [⟨"c1", 50, ⟨50, 50, 50⟩, [], [], []⟩]⟩).ranking,
        ∃ c ∈ csEx, r.candidate_id = c.id) ∧
      ∃ ms, buildMarkers (runAggregatorFallback ⟨⟨1, 0, 0⟩,
        [⟨"c1", 50, ⟨50, 50, 50⟩, [], [], []⟩]⟩).ranking csEx = .ok ms) :=
  ⟨by decide, aggregator_fallback_markers_safe csEx
    ⟨⟨1, 0, 0⟩, [⟨"c1", 50, ⟨50, 50, 50⟩, [], [], []⟩]⟩ (by decide)⟩

theorem candidatePhase_ok (cs : List Candidate) (prefs : Preferences) (sig : SignalOracle)
    (llm : Llm)
    (hc : ∀ c ∈ cs, ∃ v, sig.crime c.lat c.lon prefs.radius_m prefs.window_days = .ok v)
    (hm : ∀ c ∈ cs, ∃ v, sig.commute c.lat c.lon campusLat campusLon = .ok v)
    (hp : ∀ c ∈ cs, ∃ v, sig.pois c.lat c.lon prefs.poi_categories prefs.radius_m = .ok v) :
    ∃ rs, candidatePhase prefs sig llm cs = .ok rs ∧
      rs.map (fun r => r.candidate_id) = cs.map (fun c => c.id) := by
  induction cs with
  | nil => exact ⟨[], rfl, rfl⟩
  | cons c rest ih =>
      obtain ⟨v1, hv1⟩ := hc c (List.mem_cons_self c rest)
      obtain ⟨v2, hv2⟩ := hm c (List.mem_cons_self c rest)
      obtain ⟨v3, hv3⟩ := hp c (List.mem_cons_self c rest)
      obtain ⟨rs, hrs, hids⟩ := ih (fun x hx => hc x (List.mem_cons_of_mem _ hx))
        (fun x hx => hm x (List.mem_cons_of_mem _ hx))
        (fun x hx => hp x (List.mem_cons_of_mem _ hx))
      refine ⟨SubAgentResult.mk c.id
          (runSafetyAgent llm.key (llm.safetyAtt ⟨c.id, some v1⟩) ⟨c.id, some v1⟩)
          (runTransitAgent llm.key (llm.transitAtt ⟨c.id, some v2⟩) ⟨c.id, some v2⟩)
          (runAmenitiesAgent llm.key (llm.amenitiesAtt ⟨c.id, some v3⟩) ⟨c.id, some v3⟩)
        :: rs, ?_, by simp [hids]⟩
      simp only [candidatePhase, hv1, hv2, hv3, hrs]
      rfl

theorem aggregateCandidates_ids (w : Weights) (rs : List SubAgentResult) :
    (aggregateCandidates w rs).map (fun a => a.candidate_id) =
      rs.map (fun r => r.candidate_id) := by
  simp [aggregateCandidates, List.map_map]

theorem runAggregatorAgent_noKey (att : ℕ → Option AggregatorOutput) (p : AggPayload) :
    runAggregatorAgent false att p = runAggregatorFallback p := by
  simp [runAggregatorAgent, runAgentWithRetry]

/-- C7: if the rent-grid provider call fails during a full analysis run
(the candidate-level provider calls succeed, and the agents take the
deterministic path because no LLM key is configured), the run still
succeeds: the response carries the candidate-level ranking, details and
markers, the rent overlay is `null`, and the area-ranking step is
skipped entirely — the failure is not surfaced to the caller. -/
theorem rent_grid_failure_degrades (cs : List Candidate) (prefs : Preferences)
    (mb : Option Bounds) (sig : SignalOracle) (llm : Llm)
    (hkey : llm.key = false)
    (hc : ∀ c ∈ cs, ∃ v, sig.crime c.lat c.lon prefs.radius_m prefs.window_days = .ok v)
    (hm : ∀ c ∈ cs, ∃ v, sig.commute c.lat c.lon campusLat campusLon = .ok v)
    (hp : ∀ c ∈ cs, ∃ v, sig.pois c.lat c.lon prefs.poi_categories prefs.radius_m = .ok v)
    (hrent : ∀ a, (sig.rentGrid a).toOption = none) :
    ∃ rs ms,
      candidatePhase prefs sig llm cs = .ok rs ∧
      buildMarkers (runAggregatorFallback
        ⟨normalizeWeights ⟨.num prefs.weights.safety, .num prefs.weights.transit,
            .num prefs.weights.amenities⟩,
          aggregateCandidates (normalizeWeights ⟨.num prefs.weights.safety,
            .num prefs.weights.transit, .num prefs.weights.amenities⟩) rs⟩).ranking cs =
        .ok ms ∧
      runFullAnalysis cs prefs mb sig llm = .ok
        { ranking := (runAggregatorFallback
            ⟨normalizeWeights ⟨.num prefs.weights.safety, .num prefs.weights.transit,
                .num prefs.weights.amenities⟩,
              aggregateCandidates (normalizeWeights ⟨.num prefs.weights.safety,
                .num prefs.weights.transit, .num prefs.weights.amenities⟩) rs⟩).ranking.map
              (fun r => ⟨r.candidate_id, none, r.overall_score_0_100, r.summary,
                r.key_tradeoffs⟩)
          details := .forCandidates (runAggregatorFallback
            ⟨normalizeWeights ⟨.num prefs.weights.safety, .num prefs.weights.transit,
                .num prefs.weights.amenities⟩,
              aggregateCandidates (normalizeWeights ⟨.num prefs.weights.safety,
                .num prefs.weights.transit, .num prefs.weights.amenities⟩) rs⟩).details
          map := { markers := ms
                   overlays := { rent_geojson := none, crime_geojson := none } } } := by
  obtain ⟨rs, hrs, hids⟩ := candidatePhase_ok cs prefs sig llm hc hm hp
  set W : Weights := normalizeWeights ⟨.num prefs.weights.safety, .num prefs.weights.transit,
    .num prefs.weights.amenities⟩ with hW
  have hidsagg : ∀ a ∈ aggregateCandidates W rs, ∃ c ∈ cs, a.candidate_id = c.id := by
    intro a ha
    have hmem : a.candidate_id ∈ (aggregateCandidates W rs).map (fun x => x.candidate_id) :=
      List.mem_map_of_mem _ ha
    rw [aggregateCandidates_ids, hids] at hmem
    obtain ⟨c, hc', hceq⟩ := List.mem_map.mp hmem
    exact ⟨c, hc', hceq.symm⟩
  have hrank : ∀ r ∈ (runAggregatorFallback ⟨W, aggregateCandidates W rs⟩).ranking,
      ∃ c ∈ cs, r.candidate_id = c.id := by
    intro r hrmem
    obtain ⟨a, ha, heq⟩ := fallback_ranking_ids _ r hrmem
    obtain ⟨c, hc', hceq⟩ := hidsagg a ha
    exact ⟨c, hc', heq.trans hceq⟩
  obtain ⟨ms, hms⟩ := buildMarkersFrom_ok cs _ 0 hrank
  refine ⟨rs, ms, hrs, hms, ?_⟩
  unfold runFullAnalysis
  rw [hkey, hrs]
  simp only [Except.bind, bind]
  rw [runAggregatorAgent_noKey]
  simp only [← hW]
  rw [show buildMarkers (runAggregatorFallback ⟨W, aggregateCandidates W rs⟩).ranking cs =
    Except.ok ms from hms]
  simp only [Except.bind, bind, hrent]
  simp [deriveAreaCandidates, sortStable]
  rfl

/-- Witness for `rent_grid_failure_degrades`: a one-candidate run with a
failing rent-grid provider and no LLM key. -/
theorem rent_grid_failure_degrades_witness :
    (llmEx.key = false ∧
      (∀ c ∈ csEx, ∃ v,
        sigEx.crime c.lat c.lon prefsEx.radius_m prefsEx.window_days = .ok v) ∧
      (∀ c ∈ csEx, ∃ v, sigEx.commute c.lat c.lon campusLat campusLon = .ok v) ∧
      (∀ c ∈ csEx, ∃ v,
        sigEx.pois c.lat c.lon prefsEx.poi_categories prefsEx.radius_m = .ok v) ∧
      (∀ a, (sigEx.rentGrid a).toOption = none)) ∧
    (∃ rs ms,
      candidatePhase prefsEx sigEx llmEx csEx = .ok rs ∧
      buildMarkers (runAggregatorFallback
        ⟨normalizeWeights ⟨.num prefsEx.weights.safety, .num prefsEx.weights.transit,
            .num prefsEx.weights.amenities⟩,
          aggregateCandidates (normalizeWeights ⟨.num prefsEx.weights.safety,
            .num prefsEx.weights.transit, .num prefsEx.weights.amenities⟩) rs⟩).ranking csEx =
        .ok ms ∧
      runFullAnalysis csEx prefsEx none sigEx llmEx = .ok
        { ranking := (runAggregatorFallback
            ⟨normalizeWeights ⟨.num prefsEx.weights.safety, .num prefsEx.weights.transit,
                .num prefsEx.weights.amenities⟩,
              aggregateCandidates (normalizeWeights ⟨.num prefsEx.weights.safety,
                .num prefsEx.weights.transit, .num prefsEx.weights.amenities⟩) rs⟩).ranking.map
              (fun r => ⟨r.candidate_id, none, r.overall_score_0_100, r.summary,
                r.key_tradeoffs⟩)
          details := .forCandidates (runAggregatorFallback
            ⟨normalizeWeights ⟨.num prefsEx.weights.safety, .num prefsEx.weights.transit,
                .num prefsEx.weights.amenities⟩,
              aggregateCandidates (normalizeWeights ⟨.num prefsEx.weights.safety,
                .num prefsEx.weights.transit, .num prefsEx.weights.amenities⟩) rs⟩).details
          map := { markers := ms
                   overlays := { rent_geojson := none, crime_geojson := none } } }) :=
  ⟨⟨rfl,
    fun _ _ => ⟨⟨some [], some "lower", some "TPS"⟩, rfl⟩,
    fun _ _ => ⟨⟨some 20, some "near stop", some "MCP"⟩, rfl⟩,
    fun _ _ => ⟨⟨some [], some "OSM"⟩, rfl⟩,
    fun _ => rfl⟩,
    rent_grid_failure_degrades csEx prefsEx none sigEx llmEx rfl
      (fun _ _ => ⟨⟨some [], some "lower", some "TPS"⟩, rfl⟩)
      (fun _ _ => ⟨⟨some 20, some "near stop", some "MCP"⟩, rfl⟩)
      (fun _ _ => ⟨⟨some [], some "OSM"⟩, rfl⟩)
      (fun _ => rfl)⟩
